import Mathlib

/-!
Verification of the transaction-entry workflow of the moolah repository,
embedded from `src/app/(application)/transactions/_components/TransactionForm.tsx`.

The component is a client-side form.  We embed:
  * the JavaScript value universe the form manipulates (numbers with NaN and
    the infinities, Date objects that may be invalid),
  * the zod `formSchema` validation (per-field checks; zod reports one issue
    path per failing field, here rendered as the list of offending field names),
  * the component state (react-hook-form draft values plus the `useState`
    hooks), the `defaultValues` seeding, the account-fetch effect, the type
    toggle buttons, and the `onSubmit` handler, the latter two as pure
    state/effect transformers (each observable action — toast, revalidate,
    close, console.error — becomes an `Effect` in an ordered list).
-/

/-- JavaScript numbers as the form can produce them (`parseFloat` can yield
NaN and the infinities); finite values are modelled as rationals. -/
inductive JSNumber where
  | nan
  | posInf
  | negInf
  | fin (q : ℚ)
deriving DecidableEq, Repr

/-- zod's type test for `z.number()`: `typeof x === "number"` and not NaN
(zod classifies NaN as a distinct parsed type and rejects it). -/
def JSNumber.isNumberType : JSNumber → Bool
  | .nan => false
  | _ => true

/-- The JavaScript comparison `x > 0` used by zod's `.positive()` check. -/
def JSNumber.gtZero : JSNumber → Bool
  | .nan => false
  | .posInf => true
  | .negInf => false
  | .fin q => decide (0 < q)

/-- JavaScript truthiness of a number: 0 and NaN are falsy. -/
def JSNumber.truthy : JSNumber → Bool
  | .nan => false
  | .posInf => true
  | .negInf => true
  | .fin q => decide (q ≠ 0)

/-- A JavaScript `Date` object: either invalid (`getTime()` is NaN) or a
valid instant, identified by its millisecond timestamp. -/
inductive JSDate where
  | invalid
  | valid (millis : ℤ)
deriving DecidableEq, Repr

/-- JavaScript `a || b` on strings: `""` is falsy. -/
def jsOrString (a b : String) : String := if a == "" then b else a

/-- JavaScript `a || b` where `a` may be null/undefined (`none`) or a string. -/
def jsOrOptString (a : Option String) (b : String) : String :=
  match a with
  | none => b
  | some s => if s == "" then b else s

/-- JavaScript `a || b` on numbers: 0 and NaN are falsy. -/
def jsOrNumber (a b : JSNumber) : JSNumber := if a.truthy then a else b

/-- The draft record held by react-hook-form: the fields of `formSchema`.
`notes` is `Option String` because `z.string().optional()` admits an absent
value; the form's own `defaultValues` always supply a string. -/
structure Draft where
  account : String
  type : String
  description : String
  category : String
  date : JSDate
  amount : JSNumber
  notes : Option String
deriving DecidableEq, Repr

/-- zod check for `account: z.string().min(1)`. -/
def formSchema.accountOk (d : Draft) : Bool := decide (1 ≤ d.account.length)

/-- zod check for `type: z.enum(["expense", "income"])`. -/
def formSchema.typeOk (d : Draft) : Bool :=
  d.type == "expense" || d.type == "income"

/-- zod check for `description: z.string().min(1)`. -/
def formSchema.descriptionOk (d : Draft) : Bool := decide (1 ≤ d.description.length)

/-- zod check for `category: z.string().min(1)`. -/
def formSchema.categoryOk (d : Draft) : Bool := decide (1 ≤ d.category.length)

/-- zod check for `date: z.date()`: a Date object whose time is not NaN. -/
def formSchema.dateOk (d : Draft) : Bool :=
  match d.date with
  | .valid _ => true
  | .invalid => false

/-- zod check for `amount: z.number().positive()`: the number type test
(rejecting NaN) followed by the `> 0` comparison.  Note `.positive()` alone
does not require finiteness: `Infinity > 0` holds, so `Infinity` passes. -/
def formSchema.amountOk (d : Draft) : Bool :=
  d.amount.isNumberType && d.amount.gtZero

/-- zod check for `notes: z.string().optional()`: absent or any string. -/
def formSchema.notesOk (d : Draft) : Bool :=
  match d.notes with
  | none => true
  | some _ => true

/-- The offending field names reported by parsing a draft against
`formSchema`: zod validates every key of the object and emits issues whose
paths name exactly the failing fields. -/
def formSchema.errors (d : Draft) : List String :=
  (if formSchema.accountOk d then [] else ["account"]) ++
  (if formSchema.typeOk d then [] else ["type"]) ++
  (if formSchema.descriptionOk d then [] else ["description"]) ++
  (if formSchema.categoryOk d then [] else ["category"]) ++
  (if formSchema.dateOk d then [] else ["date"]) ++
  (if formSchema.amountOk d then [] else ["amount"]) ++
  (if formSchema.notesOk d then [] else ["notes"])

/-- An account as this component consumes it (`id`, `name`, `isDefault`). -/
structure Account where
  id : String
  name : String
  isDefault : Bool
deriving DecidableEq, Repr

/-- Modelled from the spec: the Prisma `Transaction` row type is not under
src/; only the fields this form reads (plus `date`, which an edit-mode row
carries but the form never reads) are included, nullable `notes` as
`Option String`. -/
structure Transaction where
  UserAccountId : String
  type : String
  category : String
  description : String
  amount : JSNumber
  notes : Option String
  date : JSDate
deriving DecidableEq, Repr

/-- The `defaultValues` computed in `useForm` at mount: every field is seeded
from `initialData` with a `||` fallback, except `date`, which is always
`new Date()` (`now` is that instant's timestamp). -/
def defaultValues (now : ℤ) (initialData : Option Transaction) : Draft :=
  match initialData with
  | some t =>
    { account := jsOrString t.UserAccountId ""
      type := jsOrString t.type "expense"
      category := jsOrString t.category ""
      description := jsOrString t.description ""
      date := JSDate.valid now
      amount := jsOrNumber t.amount (JSNumber.fin 0)
      notes := some (jsOrOptString t.notes "") }
  | none =>
    { account := ""
      type := "expense"
      category := ""
      description := ""
      date := JSDate.valid now
      amount := JSNumber.fin 0
      notes := some "" }

/-- The component's state: the react-hook-form draft plus the `useState`
hooks (`accounts`, `defaultAccount`, `showCalendar`, `type`). -/
structure ComponentState where
  draft : Draft
  type : String
  accounts : List Account
  defaultAccount : Option Account
  showCalendar : Bool
deriving DecidableEq, Repr

/-- The component state right after mount: draft is `defaultValues`, the
hooks hold their `useState` initial values. -/
def initialState (now : ℤ) (initialData : Option Transaction) : ComponentState :=
  { draft := defaultValues now initialData
    type := "expense"
    accounts := []
    defaultAccount := none
    showCalendar := false }

/-- Observable actions the component performs, in order of execution. -/
inductive Effect where
  | toastSuccess (msg : String)
  | toastError (msg : String)
  | revalidate (path : String)
  | closeSheet
  | logError (msg : String)
deriving DecidableEq, Repr

/-- The body of `fetchAccountsAndDefaultAccount`: on a successful fetch it
stores the accounts, stores `find(isDefault === true) || null`, and runs
`form.setValue("account", defaultAcc?.id ?? "")`; a thrown error is caught
and logged (`console.error("Error fetching accounts:", error)`). -/
def fetchAccountsAndDefaultAccount (s : ComponentState)
    (result : Except String (List Account)) : ComponentState × List Effect :=
  match result with
  | .ok fetchedAccounts =>
    ({ s with
        accounts := fetchedAccounts
        defaultAccount := fetchedAccounts.find? (fun a => a.isDefault == true)
        draft := { s.draft with
          account :=
            match fetchedAccounts.find? (fun a => a.isDefault == true) with
            | some a => a.id
            | none => "" } }, [])
  | .error e => (s, [Effect.logError ("Error fetching accounts: " ++ e)])

/-- The `onClick` of the Expense button: `setType("expense")` and
`form.setValue("type", "expense")`. -/
def clickExpenseButton (s : ComponentState) : ComponentState :=
  { s with type := "expense", draft := { s.draft with type := "expense" } }

/-- The `onClick` of the Income button: `setType("income")` and
`form.setValue("type", "income")`. -/
def clickIncomeButton (s : ComponentState) : ComponentState :=
  { s with type := "income", draft := { s.draft with type := "income" } }

/-- Modelled from the spec: `lib/categories` is not under src/; the spec only
says the expense vocabulary is a fixed key set, so representative keys are
used. -/
def EXPENSE_CATEGORIES_KEYS : List String := ["food", "transport", "rent"]

/-- Modelled from the spec: `lib/categories` is not under src/; the spec only
says the income vocabulary is a fixed key set disjoint from the expense one,
so representative keys are used. -/
def INCOME_CATEGORIES_KEYS : List String := ["salary", "bonus"]

/-- The category `SelectContent` keys: the source ternary
`type === "expense" ? EXPENSE_CATEGORIES_KEYS : INCOME_CATEGORIES_KEYS`
on the `useState` type. -/
def selectableCategoryKeys (ty : String) : List String :=
  if ty == "expense" then EXPENSE_CATEGORIES_KEYS else INCOME_CATEGORIES_KEYS

/-- The result of `createTransaction`: `success` flag and optional `error`
message, as the submit handler inspects them. -/
structure Response where
  success : Bool
  error : Option String
deriving DecidableEq, Repr

/-- Outcome of awaiting `createTransaction`: a returned response or a thrown
exception. -/
inductive CallResult where
  | ok (r : Response)
  | thrown (e : String)
deriving DecidableEq, Repr

/-- JavaScript truthiness of `response.error`: absent and `""` are falsy. -/
def truthyOptString : Option String → Bool
  | none => false
  | some s => !(s == "")

/-- The `onSubmit` handler, as the ordered effects it performs.  On
`response.success`: success toast, `customRevalidatePath("/transactions")`,
`closeSheetCallback()`.  Else if `response.error` is truthy: error toast with
that message.  Else: the generic error toast.  A thrown exception is caught
and only logged (`console.error("Error submitting transaction:", error)`).
The handler never mutates the form state. -/
def onSubmitEffects (result : CallResult) : List Effect :=
  match result with
  | .thrown e => [Effect.logError ("Error submitting transaction: " ++ e)]
  | .ok r =>
    if r.success then
      [Effect.toastSuccess "Transaction created successfully",
       Effect.revalidate "/transactions",
       Effect.closeSheet]
    else if truthyOptString r.error then
      [Effect.toastError (r.error.getD "")]
    else
      [Effect.toastError "Failed to create transaction!"]

/-- `form.handleSubmit(onSubmit)`: the zod resolver runs first and `onSubmit`
is dispatched only when the draft has no validation errors. -/
def handleSubmit (d : Draft) (result : CallResult) : List Effect :=
  if formSchema.errors d == [] then onSubmitEffects result else []

/-- The millisecond timestamp of `new Date("1900-01-01")`. -/
def date1900millis : ℤ := -2208988800000

/-- The `disabled` predicate of the Calendar:
`(date) => date > new Date() || date < new Date("1900-01-01")`, comparing
millisecond timestamps; `now` is the instant `new Date()` evaluates to. -/
def calendarDisabled (now d : ℤ) : Bool :=
  decide (now < d) || decide (d < date1900millis)

/-- The validity condition exactly as claim C1 states it: all field rules
including that the amount is a finite number strictly greater than 0. -/
def claimC1Valid (d : Draft) : Bool :=
  decide (d.account ≠ "") &&
  (d.type == "expense" || d.type == "income") &&
  decide (d.description ≠ "") &&
  decide (d.category ≠ "") &&
  (match d.date with | .valid _ => true | .invalid => false) &&
  (match d.amount with | .fin q => decide (0 < q) | _ => false)

/-- The amended amount rule: a number (not NaN) compared greater than 0 by
JavaScript ordering, under which positive Infinity also passes. -/
def claimC1AmountOk : JSNumber → Bool
  | .nan => false
  | .negInf => false
  | .posInf => true
  | .fin q => decide (0 < q)

/-- A draft that is fully populated except that its amount is positive
Infinity (reachable: `parseFloat("Infinity")`). -/
def draftInfinityAmount : Draft :=
  { account := "a1"
    type := "expense"
    description := "Coffee"
    category := "food"
    date := JSDate.valid 1709251200000
    amount := JSNumber.posInf
    notes := none }

/-- The request record passed to `createTransaction`. -/
structure CreateTransactionRequest where
  UserAccountId : String
  type : String
  description : String
  category : String
  date : JSDate
  amount : JSNumber
  notes : Option String
deriving DecidableEq, Repr

/-- The object literal built in `onSubmit` from the validated values:
`account` is renamed to `UserAccountId`, every other field passes through. -/
def toCreateRequest (v : Draft) : CreateTransactionRequest :=
  { UserAccountId := v.account
    type := v.type
    description := v.description
    category := v.category
    date := v.date
    amount := v.amount
    notes := v.notes }

/-! ## Helper lemmas -/

theorem string_length_eq_zero_iff (s : String) : s.length = 0 ↔ s = "" := by
  constructor
  · intro h
    cases s with
    | mk data =>
      have hd : data = [] := List.eq_nil_of_length_eq_zero h
      subst hd
      rfl
  · intro h
    subst h
    rfl

theorem string_one_le_length_iff (s : String) : 1 ≤ s.length ↔ s ≠ "" := by
  rw [Nat.one_le_iff_ne_zero]
  exact not_congr (string_length_eq_zero_iff s)

theorem mem_ite_nil_singleton (c : Bool) (x f : String) :
    (f ∈ (if c then ([] : List String) else [x])) ↔ (c = false ∧ f = x) := by
  cases c <;> simp

theorem ite_nil_singleton_eq_nil (c : Bool) (x : String) :
    ((if c then ([] : List String) else [x]) = []) ↔ c = true := by
  cases c <;> simp

theorem mem_ite_nil_singleton_prop (c : Prop) [Decidable c] (x f : String) :
    (f ∈ (if c then ([] : List String) else [x])) ↔ (¬c ∧ f = x) := by
  split <;> simp [*]

theorem ite_nil_singleton_eq_nil_prop (c : Prop) [Decidable c] (x : String) :
    ((if c then ([] : List String) else [x]) = []) ↔ c := by
  split <;> simp [*]

theorem find_first_split {α : Type} (p : α → Bool) :
    ∀ (l : List α) (a : α), l.find? p = some a →
      ∃ l₁ l₂, l = l₁ ++ a :: l₂ ∧ p a = true ∧ ∀ b ∈ l₁, p b = false := by
  intro l
  induction l with
  | nil =>
    intro a h
    simp [List.find?] at h
  | cons x xs ih =>
    intro a h
    by_cases hx : p x = true
    · rw [List.find?_cons_of_pos _ hx] at h
      cases h
      exact ⟨[], xs, rfl, hx, by simp⟩
    · rw [List.find?_cons_of_neg _ hx] at h
      obtain ⟨l₁, l₂, heq, hpa, hall⟩ := ih a h
      refine ⟨x :: l₁, l₂, by simp [heq], hpa, ?_⟩
      intro b hb
      rcases List.mem_cons.mp hb with hbx | hbl
      · subst hbx
        exact Bool.not_eq_true _ ▸ eq_false_of_ne_true hx
      · exact hall b hbl

/-! ## Claims -/

/-- C6: a calendar day is disabled exactly when it is strictly before
1900-01-01 or strictly after the current instant; every instant in the
inclusive range [1900-01-01, now] is enabled. -/
theorem C6_calendar_date_range (now d : ℤ) :
    (calendarDisabled now d = true ↔ (d < date1900millis ∨ now < d)) ∧
    (calendarDisabled now d = false ↔ (date1900millis ≤ d ∧ d ≤ now)) := by
  unfold calendarDisabled
  constructor
  · simp [Bool.or_eq_true, decide_eq_true_eq]
    tauto
  · simp [Bool.or_eq_false_iff, decide_eq_false_iff_not]
    omega

/-- C8: the request sent to `createTransaction` is the validated draft with
`account` renamed to `UserAccountId`; every other field is passed through
unchanged. -/
theorem C8_request_is_field_renaming (v : Draft) :
    (toCreateRequest v).UserAccountId = v.account ∧
    (toCreateRequest v).type = v.type ∧
    (toCreateRequest v).description = v.description ∧
    (toCreateRequest v).category = v.category ∧
    (toCreateRequest v).date = v.date ∧
    (toCreateRequest v).amount = v.amount ∧
    (toCreateRequest v).notes = v.notes :=
  ⟨rfl, rfl, rfl, rfl, rfl, rfl, rfl⟩

/-- C9: regardless of `initialData` — even an edit-mode transaction carrying
its own date — the draft's initial date is the mount-time `new Date()`; the
initial data's date field is never read. -/
theorem C9_initial_date_is_mount_time (now : ℤ) (t : Transaction) (d : JSDate) :
    (defaultValues now (some t)).date = JSDate.valid now ∧
    (defaultValues now none).date = JSDate.valid now ∧
    defaultValues now (some { t with date := d }) = defaultValues now (some t) :=
  ⟨rfl, rfl, rfl⟩

/-- C4: when `createTransaction` throws, `onSubmit` only logs: it emits no
toast of either severity, no close signal and no revalidation. -/
theorem C4_exception_only_logged (e m : String) :
    onSubmitEffects (CallResult.thrown e) =
      [Effect.logError ("Error submitting transaction: " ++ e)] ∧
    Effect.toastSuccess m ∉ onSubmitEffects (CallResult.thrown e) ∧
    Effect.toastError m ∉ onSubmitEffects (CallResult.thrown e) ∧
    Effect.closeSheet ∉ onSubmitEffects (CallResult.thrown e) ∧
    Effect.revalidate m ∉ onSubmitEffects (CallResult.thrown e) := by
  refine ⟨rfl, ?_, ?_, ?_, ?_⟩ <;> simp [onSubmitEffects]

/-- C5: toggling the type buttons switches the selectable category key set to
the target type's set while the draft's `category` value is left untouched,
even when it came from the other type's set. -/
theorem C5_type_switch_keeps_category (s : ComponentState) :
    (clickIncomeButton s).draft.category = s.draft.category ∧
    selectableCategoryKeys (clickIncomeButton s).type = INCOME_CATEGORIES_KEYS ∧
    (clickExpenseButton s).draft.category = s.draft.category ∧
    selectableCategoryKeys (clickExpenseButton s).type = EXPENSE_CATEGORIES_KEYS :=
  ⟨rfl, rfl, rfl, rfl⟩

/-! ## Field-level characterizations of the zod checks -/

theorem accountOk_iff (d : Draft) :
    formSchema.accountOk d = true ↔ d.account ≠ "" := by
  simp [formSchema.accountOk, string_one_le_length_iff]

theorem accountOk_false_iff (d : Draft) :
    formSchema.accountOk d = false ↔ d.account = "" := by
  rw [← Bool.not_eq_true, accountOk_iff]
  simp

theorem typeOk_iff (d : Draft) :
    formSchema.typeOk d = true ↔ (d.type = "expense" ∨ d.type = "income") := by
  simp [formSchema.typeOk]

theorem typeOk_false_iff (d : Draft) :
    formSchema.typeOk d = false ↔ (d.type ≠ "expense" ∧ d.type ≠ "income") := by
  rw [← Bool.not_eq_true, typeOk_iff]
  tauto

theorem descriptionOk_iff (d : Draft) :
    formSchema.descriptionOk d = true ↔ d.description ≠ "" := by
  simp [formSchema.descriptionOk, string_one_le_length_iff]

theorem descriptionOk_false_iff (d : Draft) :
    formSchema.descriptionOk d = false ↔ d.description = "" := by
  rw [← Bool.not_eq_true, descriptionOk_iff]
  simp

theorem categoryOk_iff (d : Draft) :
    formSchema.categoryOk d = true ↔ d.category ≠ "" := by
  simp [formSchema.categoryOk, string_one_le_length_iff]

theorem categoryOk_false_iff (d : Draft) :
    formSchema.categoryOk d = false ↔ d.category = "" := by
  rw [← Bool.not_eq_true, categoryOk_iff]
  simp

theorem dateOk_iff (d : Draft) :
    formSchema.dateOk d = true ↔ d.date ≠ JSDate.invalid := by
  unfold formSchema.dateOk
  cases h : d.date <;> simp [h]

theorem dateOk_false_iff (d : Draft) :
    formSchema.dateOk d = false ↔ d.date = JSDate.invalid := by
  rw [← Bool.not_eq_true, dateOk_iff]
  simp

theorem amountOk_eq_claimC1AmountOk (d : Draft) :
    formSchema.amountOk d = claimC1AmountOk d.amount := by
  unfold formSchema.amountOk claimC1AmountOk JSNumber.isNumberType JSNumber.gtZero
  cases d.amount <;> rfl

theorem notesOk_true (d : Draft) : formSchema.notesOk d = true := by
  unfold formSchema.notesOk
  cases d.notes <;> rfl

/-- C1 counterexample: a draft whose amount is positive Infinity passes the
zod schema with no errors, yet the claim requires the amount to be finite,
so by the claim it should be invalid. -/
theorem C1_counterexample_infinite_amount :
    formSchema.errors draftInfinityAmount = [] ∧
    claimC1Valid draftInfinityAmount = false :=
  ⟨rfl, rfl⟩

/-- C1 amended: validation succeeds with an empty error set iff accountId is
non-empty, type is expense or income, description and category are non-empty,
the date is a valid date value, and the amount is a non-NaN number strictly
greater than 0 under JavaScript ordering (so Infinity also passes — the
finiteness requirement of the original claim does not hold); the error list
names exactly the offending fields. -/
theorem C1_validate_amended (d : Draft) :
    (formSchema.errors d = [] ↔
      (d.account ≠ "" ∧ (d.type = "expense" ∨ d.type = "income") ∧
       d.description ≠ "" ∧ d.category ≠ "" ∧ d.date ≠ JSDate.invalid ∧
       claimC1AmountOk d.amount = true)) ∧
    (∀ f, f ∈ formSchema.errors d ↔
      ((f = "account" ∧ d.account = "") ∨
       (f = "type" ∧ d.type ≠ "expense" ∧ d.type ≠ "income") ∨
       (f = "description" ∧ d.description = "") ∨
       (f = "category" ∧ d.category = "") ∨
       (f = "date" ∧ d.date = JSDate.invalid) ∨
       (f = "amount" ∧ claimC1AmountOk d.amount = false))) := by
  constructor
  · rw [formSchema.errors]
    simp [List.append_eq_nil, ite_nil_singleton_eq_nil_prop, notesOk_true,
      accountOk_iff, typeOk_iff, descriptionOk_iff, categoryOk_iff, dateOk_iff,
      amountOk_eq_claimC1AmountOk]
    tauto
  · intro f
    rw [formSchema.errors]
    simp [List.mem_append, mem_ite_nil_singleton_prop, notesOk_true,
      accountOk_iff, typeOk_iff, descriptionOk_iff, categoryOk_iff, dateOk_iff,
      amountOk_eq_claimC1AmountOk]
    tauto

/-- C2: the resolver writes the id of the first account with
`isDefault = true` into the draft's account field — and the empty string when
no account is default — independently of whatever value the field held
before (so any pre-populated value is overwritten). -/
theorem C2_default_account_resolution (s s' : ComponentState)
    (fetched : List Account) :
    ((∃ a ∈ fetched, a.isDefault = true) →
      ∃ l₁ b l₂, fetched = l₁ ++ b :: l₂ ∧ b.isDefault = true ∧
        (∀ c ∈ l₁, c.isDefault = false) ∧
        (fetchAccountsAndDefaultAccount s (Except.ok fetched)).1.draft.account
          = b.id) ∧
    ((∀ a ∈ fetched, a.isDefault = false) →
      (fetchAccountsAndDefaultAccount s (Except.ok fetched)).1.draft.account
        = "") ∧
    ((fetchAccountsAndDefaultAccount s (Except.ok fetched)).1.draft.account =
      (fetchAccountsAndDefaultAccount s' (Except.ok fetched)).1.draft.account) := by
  have haccount : ∀ (t : ComponentState),
      (fetchAccountsAndDefaultAccount t (Except.ok fetched)).1.draft.account =
        (match fetched.find? (fun a => a.isDefault == true) with
         | some a => a.id
         | none => "") := fun t => rfl
  refine ⟨?_, ?_, ?_⟩
  · rintro ⟨a, ha, hdef⟩
    cases heq : fetched.find? (fun a => a.isDefault == true) with
    | none =>
      exfalso
      have hnone := List.find?_eq_none.mp heq a ha
      simp [hdef] at hnone
    | some b =>
      obtain ⟨l₁, l₂, hsplit, hpb, hall⟩ := find_first_split _ fetched b heq
      refine ⟨l₁, b, l₂, hsplit, by simpa using hpb, ?_, ?_⟩
      · intro c hc
        simpa using hall c hc
      · rw [haccount s, heq]
  · intro hnone
    have heq : fetched.find? (fun a => a.isDefault == true) = none := by
      rw [List.find?_eq_none]
      intro x hx
      simp [hnone x hx]
    rw [haccount s, heq]
  · rw [haccount s, haccount s']

/-- An account list without a default account, for the C2 witness. -/
def accountMain : Account := { id := "a1", name := "Main", isDefault := false }

/-- The default account used in the C2 witness. -/
def accountSavings : Account :=
  { id := "a2", name := "Savings", isDefault := true }

/-- A freshly mounted create-mode component state. -/
def mountedState : ComponentState := initialState 0 none

/-- Witness for C2: on a concrete two-account list whose second entry is the
default one, the resolver writes "a2" into the freshly mounted draft. -/
theorem C2_default_account_resolution_witness :
    ∃ l₁ b l₂, [accountMain, accountSavings] = l₁ ++ b :: l₂ ∧
      b.isDefault = true ∧ (∀ c ∈ l₁, c.isDefault = false) ∧
      (fetchAccountsAndDefaultAccount mountedState
          (Except.ok [accountMain, accountSavings])).1.draft.account = b.id :=
  (C2_default_account_resolution mountedState mountedState
      [accountMain, accountSavings]).1 ⟨accountSavings, by simp, rfl⟩

/-- C3: the submit handler reduces the creation result exactly as claimed —
success gives the success toast, the listing revalidation and the close
signal in that order; a truthy server error message gives an error toast
carrying it and no close; a missing (or empty, hence falsy) error message
gives the generic failure toast. -/
theorem C3_submission_result_cases (r : Response) (e : String) :
    (r.success = true →
      onSubmitEffects (CallResult.ok r) =
        [Effect.toastSuccess "Transaction created successfully",
         Effect.revalidate "/transactions",
         Effect.closeSheet]) ∧
    (r.success = false → r.error = some e → e ≠ "" →
      onSubmitEffects (CallResult.ok r) = [Effect.toastError e] ∧
      Effect.closeSheet ∉ onSubmitEffects (CallResult.ok r)) ∧
    (r.success = false → (r.error = none ∨ r.error = some "") →
      onSubmitEffects (CallResult.ok r) =
        [Effect.toastError "Failed to create transaction!"]) := by
  refine ⟨?_, ?_, ?_⟩
  · intro hs
    simp [onSubmitEffects, hs]
  · intro hs he hne
    have ht : truthyOptString (some e) = true := by
      simp [truthyOptString, hne]
    constructor
    · simp [onSubmitEffects, hs, he, ht]
    · simp [onSubmitEffects, hs, he, ht]
  · intro hs herr
    rcases herr with h | h <;> simp [onSubmitEffects, hs, truthyOptString, h]

/-- Witness for C3: the three result-handling cases evaluated on concrete
responses. -/
theorem C3_submission_result_cases_witness :
    (onSubmitEffects (CallResult.ok { success := true, error := none }) =
      [Effect.toastSuccess "Transaction created successfully",
       Effect.revalidate "/transactions",
       Effect.closeSheet]) ∧
    (onSubmitEffects
        (CallResult.ok { success := false, error := some "Account not found" })
        = [Effect.toastError "Account not found"] ∧
      Effect.closeSheet ∉ onSubmitEffects
        (CallResult.ok { success := false, error := some "Account not found" })) ∧
    (onSubmitEffects (CallResult.ok { success := false, error := none }) =
      [Effect.toastError "Failed to create transaction!"]) :=
  ⟨(C3_submission_result_cases { success := true, error := none } "x").1 rfl,
   (C3_submission_result_cases
      { success := false, error := some "Account not found" }
      "Account not found").2.1 rfl rfl (by decide),
   (C3_submission_result_cases { success := false, error := none } "x").2.2
      rfl (Or.inl rfl)⟩

/-- An edit-mode initial transaction carrying an account id: the draft's
account field is seeded from its `UserAccountId` at mount. -/
def editTransaction : Transaction :=
  { UserAccountId := "acc1"
    type := "expense"
    category := "food"
    description := "Coffee"
    amount := JSNumber.fin 5
    notes := some ""
    date := JSDate.valid 0 }

/-- C7 counterexample: after a failed fetch on the edit-mode mount above, the
draft's account field holds "acc1", not the empty string the claim asserts. -/
theorem C7_counterexample_edit_mode :
    (fetchAccountsAndDefaultAccount (initialState 0 (some editTransaction))
        (Except.error "network down")).1.draft.account = "acc1" ∧
    "acc1" ≠ "" :=
  ⟨rfl, by decide⟩

/-- C7 amended: a failed account fetch is caught and only logged; it leaves
the whole component state — in particular the draft's account field —
unchanged, so the field keeps its initial value: empty in create mode, but
the edit-mode initial account id when one was supplied. -/
theorem C7_fetch_failure_amended (s : ComponentState) (e : String) (now : ℤ) :
    (fetchAccountsAndDefaultAccount s (Except.error e)).1 = s ∧
    (fetchAccountsAndDefaultAccount s (Except.error e)).2 =
      [Effect.logError ("Error fetching accounts: " ++ e)] ∧
    (fetchAccountsAndDefaultAccount (initialState now none)
        (Except.error e)).1.draft.account = "" :=
  ⟨rfl, rfl, rfl⟩

/-- C10: with no initial data the draft's initial amount is 0, which fails
the strict-positivity check, so the untouched fresh form always validates
with "amount" among the offending fields and `handleSubmit` never dispatches
the creation call. -/
theorem C10_fresh_form_never_submittable (now : ℤ) (r : CallResult) :
    (defaultValues now none).amount = JSNumber.fin 0 ∧
    "amount" ∈ formSchema.errors (defaultValues now none) ∧
    formSchema.errors (defaultValues now none) ≠ [] ∧
    handleSubmit (defaultValues now none) r = [] := by
  have herr : formSchema.errors (defaultValues now none) =
      ["account", "description", "category", "amount"] := rfl
  refine ⟨rfl, ?_, ?_, ?_⟩
  · rw [herr]
    simp
  · rw [herr]
    simp
  · unfold handleSubmit
    rw [herr]
    rfl
